import Mathlib

/-!
Verification of the statement-abstraction and table-extraction engine of
`superset/sql/parse.py`.

The development shallowly embeds the Python source: pure functions become Lean
functions over `List Char` / `String`, the sqlglot AST and scope objects (an
external collaborator of the module) are modelled by explicit inductive types
carrying exactly the attributes the module reads, and Python exceptions become
`Except` results.
-/

namespace Superset

/-! ### Character constants

Named characters used by the quote-aware KQL splitter; kept as `Char.ofNat`
codes (39 = single quote, 34 = double quote, 96 = backtick, 92 = backslash). -/

def squote : Char := Char.ofNat 39

def dquote : Char := Char.ofNat 34

def btick : Char := Char.ofNat 96

def bslash : Char := Char.ofNat 92

/-! ### The `Table` value type

`@dataclass(eq=True, frozen=True) class Table` with fields `table`,
`schema: str | None = None`, `catalog: str | None = None`.

`Table.__str__` percent-encodes each present part with
`urllib.parse.quote(part, safe="").replace(".", "%2E")` and joins the parts
with `"."`, in the order catalog, schema, table, skipping parts that are
falsy (`None` or the empty string). -/

structure Table where
  table : String
  schema : Option String := none
  catalog : Option String := none
  deriving DecidableEq

/-- UTF-8 encoding of one character as a list of byte values; `urllib.parse.quote`
operates on the UTF-8 encoding of the part. -/
def utf8Bytes (c : Char) : List Nat :=
  let n := c.toNat
  if n < 128 then [n]
  else if n < 2048 then [192 + n / 64, 128 + n % 64]
  else if n < 65536 then [224 + n / 4096, 128 + (n / 64) % 64, 128 + n % 64]
  else [240 + n / 262144, 128 + (n / 4096) % 64, 128 + (n / 64) % 64, 128 + n % 64]

/-- Uppercase hexadecimal digit, as produced by `urllib.parse.quote`. -/
def hexDigit (n : Nat) : Char :=
  if n < 10 then Char.ofNat (48 + n) else Char.ofNat (55 + n)

/-- Bytes left unescaped by `urllib.parse.quote(part, safe="")`: ASCII letters,
digits, `_`, `-`, `~` — and `.`, which the source immediately replaces by
`%2E` afterwards, so it is handled separately in `quoteEscapeDot`. -/
def alwaysSafeByte (b : Nat) : Bool :=
  (65 ≤ b && b ≤ 90) || (97 ≤ b && b ≤ 122) || (48 ≤ b && b ≤ 57) ||
    b == 95 || b == 45 || b == 126

/-- One part of the canonical name:
`urllib.parse.quote(part, safe="").replace(".", "%2E")`, with the trailing
replacement fused into the encoder (a literal `.` is the only source of a `.`
in the quoted output, since quote keeps `.` unescaped and never produces one
otherwise). -/
def quoteEscapeDot (part : String) : List Char :=
  part.data.flatMap fun c => (utf8Bytes c).flatMap fun b =>
    if b == 46 then ['%', '2', 'E']
    else if alwaysSafeByte b then [Char.ofNat b]
    else ['%', hexDigit (b / 16), hexDigit (b % 16)]

/-- Models `".".join(...)` on the encoded parts. -/
def joinDot : List String → String
  | [] => ""
  | [s] => s
  | s :: rest => s ++ "." ++ joinDot rest

/-- `Table.__str__`: the canonical fully qualified name. The comprehension
`for part in [self.catalog, self.schema, self.table] if part` keeps the parts
that are neither `None` nor empty. -/
def Table.canonicalStr (t : Table) : String :=
  joinDot
    ((([t.catalog, t.schema, some t.table].filterMap id).filter
      fun p => p != "").map fun p => String.mk (quoteEscapeDot p))

/-- `Table.__eq__`, restricted to two `Table` operands:
`str(self) == str(other)`. -/
def Table.pyEq (a b : Table) : Bool :=
  a.canonicalStr == b.canonicalStr

/-- Key of the `__hash__` generated by `@dataclass(eq=True, frozen=True)`.
Because the class body defines `__eq__` (setting `__hash__` to `None` in the
class dict), the dataclass machinery still installs its generated hash, which
hashes the tuple of fields in declaration order — not the canonical string.
Two values hash alike exactly when their keys are equal (up to hash
collisions, which the model ignores). -/
def Table.hashKey (t : Table) : String × Option String × Option String :=
  (t.table, t.schema, t.catalog)

/-! ### The quote-aware KQL splitter (`split_kql`)

A four-state machine scanning the query character by character.  The Python
loop reads `query[i - 1]` and `query[i - 2 : i]`; the accumulator carries the
two previously scanned characters (`none` while fewer than one/two characters
have been scanned, where the Python slices compare unequal to `"``"`;
`query[i - 1]` at `i = 0` is unreachable because the scan starts outside any
string). -/

inductive KQLSplitState where
  | OUTSIDE_STRING
  | INSIDE_SINGLE_QUOTED_STRING
  | INSIDE_DOUBLE_QUOTED_STRING
  | INSIDE_MULTILINE_STRING
  deriving DecidableEq

/-- One transition of the `split_kql` state machine for character `c`, with
`p2`/`p1` the characters two/one positions back.  On a top-level `;` no branch
of the Python `if`/`elif` chain fires, so the state stays `OUTSIDE_STRING`. -/
def kqlNextState (st : KQLSplitState) (p2 p1 : Option Char) (c : Char) : KQLSplitState :=
  match st with
  | .OUTSIDE_STRING =>
    if c = squote then .INSIDE_SINGLE_QUOTED_STRING
    else if c = dquote then .INSIDE_DOUBLE_QUOTED_STRING
    else if c = btick ∧ p2 = some btick ∧ p1 = some btick then .INSIDE_MULTILINE_STRING
    else .OUTSIDE_STRING
  | .INSIDE_SINGLE_QUOTED_STRING =>
    if c = squote ∧ p1 ≠ some bslash then .OUTSIDE_STRING
    else .INSIDE_SINGLE_QUOTED_STRING
  | .INSIDE_DOUBLE_QUOTED_STRING =>
    if c = dquote ∧ p1 ≠ some bslash then .OUTSIDE_STRING
    else .INSIDE_DOUBLE_QUOTED_STRING
  | .INSIDE_MULTILINE_STRING =>
    if c = btick ∧ p2 = some btick ∧ p1 = some btick then .OUTSIDE_STRING
    else .INSIDE_MULTILINE_STRING

/-- Scanner accumulator: machine state, the two characters of look-back, the
current segment (reversed) and the emitted segments (reversed), mirroring
`statements`, `state` and `statement_start` of the Python loop. -/
structure KQLAcc where
  st : KQLSplitState
  p2 : Option Char
  p1 : Option Char
  cur : List Char
  segs : List (List Char)

def kqlInitAcc : KQLAcc :=
  { st := .OUTSIDE_STRING, p2 := none, p1 := none, cur := [], segs := [] }

/-- One iteration of the `for i, character in enumerate(query)` loop: a `;`
scanned outside any string emits `query[statement_start:i]` and resets the
segment; every other character is part of the current segment. -/
def kqlStepAcc (a : KQLAcc) (c : Char) : KQLAcc :=
  if a.st = .OUTSIDE_STRING ∧ c = ';' then
    { st := kqlNextState a.st a.p2 a.p1 c, p2 := a.p1, p1 := some c,
      cur := [], segs := a.cur.reverse :: a.segs }
  else
    { st := kqlNextState a.st a.p2 a.p1 c, p2 := a.p1, p1 := some c,
      cur := c :: a.cur, segs := a.segs }

/-- Models `kql.endswith(";")`. -/
def endsWithSemi (l : List Char) : Bool :=
  match l.getLast? with
  | some c => c == ';'
  | none => false

/-- `query = kql if kql.endswith(";") else kql + ";"`. -/
def kqlProcessed (l : List Char) : List Char :=
  if endsWithSemi l then l else l ++ [';']

/-- `split_kql`: scan the processed query and return the emitted segments, in
order.  Only `statements` is returned; anything after the last top-level `;`
(possible when the scan ends inside a string literal) is discarded. -/
def split_kql (kql : String) : List String :=
  (((kqlProcessed kql.data).foldl kqlStepAcc kqlInitAcc).segs.reverse).map String.mk

/-! Pure (state, look-back) view of the same scan, used to count top-level
separators and state final states. -/

/-- Scan triple: machine state plus the two look-back characters. -/
def KQLTrip := KQLSplitState × Option Char × Option Char

def kqlTripStep : KQLTrip → Char → KQLTrip :=
  fun t c => (kqlNextState t.1 t.2.1 t.2.2 c, t.2.2, some c)

def kqlInitTrip : KQLTrip := (.OUTSIDE_STRING, none, none)

def kqlScanFrom (t : KQLTrip) (l : List Char) : KQLTrip :=
  l.foldl kqlTripStep t

/-- Number of separators scanned in the `OUTSIDE_STRING` state, starting the
machine from the triple `t` — `;` characters "outside any string literal". -/
def kqlCountFrom : KQLTrip → List Char → Nat
  | _, [] => 0
  | t, c :: l =>
    (if t.1 = .OUTSIDE_STRING ∧ c = ';' then 1 else 0) + kqlCountFrom (kqlTripStep t c) l

/-- Top-level separators of a text, scanned from the initial state. -/
def topLevelSemis (kql : String) : Nat :=
  kqlCountFrom kqlInitTrip kql.data

/-! ### The sqlglot AST, as consumed by this module

The external grammar engine is out of scope; its AST is modelled by a rose
tree carrying exactly the attributes the module reads: the node kind (the
`isinstance` checks), `name` (the textual `this` of commands and literals),
`db`/`catalog` (the qualifier args of an `exp.Table`), `sql()` (the generated
text of the subtree) and the ordered children (`expression` is the first
child).  The child list is a separate inductive so that the walk functions are
structural. -/

inductive NodeKind where
  | insert
  | update
  | delete
  | merge
  | create
  | drop
  | truncateTable
  | command
  | describe
  | select
  | setStmt
  | setItem
  | eqExpr
  | literal
  | tableRef
  | column
  | other
  deriving DecidableEq

mutual
inductive SGExpr where
  | mk (kind : NodeKind) (name : String) (db : String) (catalog : String)
      (sqlText : String) (children : SGList)
  deriving DecidableEq
inductive SGList where
  | nil
  | cons (e : SGExpr) (l : SGList)
  deriving DecidableEq
end

def SGExpr.kind : SGExpr → NodeKind
  | .mk k _ _ _ _ _ => k

def SGExpr.name : SGExpr → String
  | .mk _ n _ _ _ _ => n

def SGExpr.db : SGExpr → String
  | .mk _ _ d _ _ _ => d

def SGExpr.catalog : SGExpr → String
  | .mk _ _ _ c _ _ => c

def SGExpr.sqlText : SGExpr → String
  | .mk _ _ _ _ s _ => s

def SGExpr.children : SGExpr → SGList
  | .mk _ _ _ _ _ cs => cs

def SGList.toList : SGList → List SGExpr
  | .nil => []
  | .cons e l => e :: SGList.toList l

/-- Placeholder node used where sqlglot would dereference a structurally
guaranteed child (both operands of an `exp.EQ`). -/
def defaultSGExpr : SGExpr := .mk .other "" "" "" "" .nil

def SGExpr.childD (e : SGExpr) (i : Nat) : SGExpr :=
  (SGList.toList e.children).getD i defaultSGExpr

mutual
/-- Does any node of the AST (`self.walk()`, the node itself included)
satisfy the predicate? -/
def anyNode (p : SGExpr → Bool) : SGExpr → Bool
  | .mk k n d c s cs => p (.mk k n d c s cs) || anyNodeList p cs
def anyNodeList (p : SGExpr → Bool) : SGList → Bool
  | .nil => false
  | .cons e l => anyNode p e || anyNodeList p l
end

mutual
/-- `find_all(kind)`: every node of the given kind, in depth-first preorder
(the order `Expression.walk` yields nodes). -/
def collectKind (k : NodeKind) : SGExpr → List SGExpr
  | .mk k0 n d c s cs =>
    (if k0 = k then [SGExpr.mk k0 n d c s cs] else []) ++ collectKindList k cs
def collectKindList (k : NodeKind) : SGList → List SGExpr
  | .nil => []
  | .cons e l => collectKind k e ++ collectKindList k l
end

/-! ### Dialect registry -/

/-- The sqlglot dialect tags referenced by `SQLGLOT_DIALECTS`. -/
inductive Dialects where
  | HIVE
  | PRESTO
  | BIGQUERY
  | CLICKHOUSE
  | POSTGRES
  | MYSQL
  | DATABRICKS
  | DRILL
  | DUCKDB
  | SQLITE
  | TSQL
  | ORACLE
  | DORIS
  | REDSHIFT
  | SNOWFLAKE
  | SPARK
  | STARROCKS
  | TERADATA
  | TRINO
  deriving DecidableEq

/-- The module-level mapping between DB engine specs and sqlglot dialects;
`SQLGLOT_DIALECTS.get(engine)` is `Option.none` for unmapped engines. -/
def SQLGLOT_DIALECTS (engine : String) : Option Dialects :=
  match engine with
  | "ascend" => some .HIVE
  | "awsathena" => some .PRESTO
  | "bigquery" => some .BIGQUERY
  | "clickhouse" => some .CLICKHOUSE
  | "clickhousedb" => some .CLICKHOUSE
  | "cockroachdb" => some .POSTGRES
  | "couchbase" => some .MYSQL
  | "databricks" => some .DATABRICKS
  | "drill" => some .DRILL
  | "duckdb" => some .DUCKDB
  | "gsheets" => some .SQLITE
  | "hana" => some .POSTGRES
  | "hive" => some .HIVE
  | "mssql" => some .TSQL
  | "mysql" => some .MYSQL
  | "netezza" => some .POSTGRES
  | "oracle" => some .ORACLE
  | "postgresql" => some .POSTGRES
  | "presto" => some .PRESTO
  | "pydoris" => some .DORIS
  | "redshift" => some .REDSHIFT
  | "shillelagh" => some .SQLITE
  | "snowflake" => some .SNOWFLAKE
  | "spark" => some .SPARK
  | "sqlite" => some .SQLITE
  | "starrocks" => some .STARROCKS
  | "superset" => some .SQLITE
  | "teradatasql" => some .TERADATA
  | "trino" => some .TRINO
  | "vertica" => some .POSTGRES
  | _ => none

/-! ### Errors and external-parser oracles -/

/-- The `SupersetParseError` raises of the module, split by the site that
raises them (the spec's `UnparseableQuery` / `NotSingleStatement` /
`InvalidEngine` taxonomy). -/
inductive ParseFailure where
  | unparseable
  | notSingleStatement
  | invalidEngine
  deriving DecidableEq

/-- The external `sqlglot.parse(text, dialect)`: a list of optional parsed
statements (empty units come back as `None`), or a parse error (`none`). -/
def ParseOracle : Type :=
  String → Option Dialects → Option (List (Option SGExpr))

/-- The external `sqlglot.parse_one(text, dialect)`: one parsed statement or
a parse error. -/
def ParseOneOracle : Type :=
  String → Option Dialects → Option SGExpr

/-! ### Scope model and table extraction -/

/-- `sqlglot.optimizer.scope.ScopeType`, as far as this module inspects it. -/
inductive ScopeType where
  | ROOT
  | SUBQUERY
  | DERIVED_TABLE
  | CTE
  | UNION
  | UDTF
  deriving DecidableEq

/-- One value of a scope's `sources` mapping: either an `exp.Table` reference
or a nested `Scope`, of which the module only ever reads `scope_type`. -/
inductive ScopeSource where
  | tbl (t : SGExpr)
  | sub (scopeType : ScopeType)
  deriving DecidableEq

/-- A sqlglot `Scope` as consumed by this module: its own `scope_type` and
`sources`, plus its parent's `sources` (`scope.parent.sources`, absent for the
root scope). -/
structure ScopeInfo where
  scope_type : ScopeType
  sources : List (String × ScopeSource)
  parentSources : Option (List (String × ScopeSource))

/-- `is_cte(source, scope)`: the candidate's short name is bound in the parent
scope's sources to a nested scope tagged `ScopeType.CTE`. -/
def is_cte (source : SGExpr) (scope : ScopeInfo) : Bool :=
  let parent_sources := scope.parentSources.getD []
  let ctes_in_scope :=
    (parent_sources.filter fun p =>
      match p.2 with
      | .sub st => st == ScopeType.CTE
      | .tbl _ => false).map Prod.fst
  ctes_in_scope.contains source.name

/-- `Table(source.name, source.db if ... else None, source.catalog if ... else
None)`: empty qualifiers normalize to absent. -/
def sourceToTable (t : SGExpr) : Table :=
  { table := t.name,
    schema := if t.db == "" then none else some t.db,
    catalog := if t.catalog == "" then none else some t.catalog }

/-- The final set comprehension: collect the surviving sources into a set.
Python's `set` deduplicates by the structural dataclass hash (then `__eq__`),
modelled as first-occurrence deduplication under structural equality. -/
def tableSet (ts : List SGExpr) : List Table :=
  ts.foldl (fun acc t => if sourceToTable t ∈ acc then acc else acc ++ [sourceToTable t]) []

/-- The sources a single scope contributes in the general-query branch:
`source for source in scope.sources.values() if isinstance(source, exp.Table)
and not is_cte(source, scope)`. -/
def scopeCandidates (scope : ScopeInfo) : List SGExpr :=
  scope.sources.filterMap fun p =>
    match p.2 with
    | .tbl t => if is_cte t scope then none else some t
    | .sub _ => none

/-- `extract_tables_from_statement(statement, dialect)`, parameterized by the
external `traverse_scope` and `parse_one` facilities.  `DESCRIBE` statements
are scanned for all `exp.Table` nodes; commands re-parse their first literal
as `SELECT <literal>` (a failed re-parse contributes no tables); every other
statement goes through scope traversal with CTE exclusion. -/
def extract_tables_from_statement (ts : SGExpr → List ScopeInfo)
    (po : ParseOneOracle) (statement : SGExpr) (dialect : Option Dialects) :
    List Table :=
  if statement.kind = .describe then
    tableSet (collectKind .tableRef statement)
  else if statement.kind = .command then
    match (collectKind .literal statement).head? with
    | none => []
    | some lit =>
      match po ("SELECT " ++ lit.name) dialect with
      | none => []
      | some pseudo => tableSet (collectKind .tableRef pseudo)
  else
    tableSet (((ts statement).map scopeCandidates).flatten)

/-! ### SQLStatement (grammar-backed variant) -/

/-- `SQLStatement._parse_statement`: parse with the engine's dialect, drop
falsy units, and require exactly one statement. -/
def SQLStatement_parse_statement (pm : ParseOracle) (statement : String)
    (engine : String) : Except ParseFailure SGExpr :=
  match pm statement (SQLGLOT_DIALECTS engine) with
  | none => .error .unparseable
  | some sts =>
    match sts.filterMap id with
    | [s] => .ok s
    | _ => .error .notSingleStatement

/-- A constructed `SQLStatement`: engine, resolved dialect, owned AST, and the
eagerly computed table set. -/
structure SQLStatementObj where
  engine : String
  dialect : Option Dialects
  parsed : SGExpr
  tables : List Table

/-- `SQLStatement(statement, engine)` for a pre-parsed AST (the path used by
`split_query`): no parsing, eager table extraction. -/
def SQLStatement_fromAST (ts : SGExpr → List ScopeInfo) (po : ParseOneOracle)
    (e : SGExpr) (engine : String) : SQLStatementObj :=
  { engine := engine, dialect := SQLGLOT_DIALECTS engine, parsed := e,
    tables := extract_tables_from_statement ts po e (SQLGLOT_DIALECTS engine) }

/-- `SQLStatement(statement, engine)` for a string: parse (single statement
required), then eager table extraction. -/
def SQLStatement_fromText (pm : ParseOracle) (ts : SGExpr → List ScopeInfo)
    (po : ParseOneOracle) (statement : String) (engine : String) :
    Except ParseFailure SQLStatementObj :=
  match SQLStatement_parse_statement pm statement engine with
  | .error e => .error e
  | .ok parsed => .ok (SQLStatement_fromAST ts po parsed engine)

/-- `SQLStatement.split_query`: multi-statement parse, drop falsy units, wrap
each remaining unit. -/
def SQLStatement_split_query (pm : ParseOracle) (ts : SGExpr → List ScopeInfo)
    (po : ParseOneOracle) (query : String) (engine : String) :
    Except ParseFailure (List SQLStatementObj) :=
  match pm query (SQLGLOT_DIALECTS engine) with
  | none => .error .unparseable
  | some sts =>
    .ok ((sts.filterMap id).map fun e => SQLStatement_fromAST ts po e engine)

/-! ### Mutation classification -/

/-- The node kinds of the `isinstance` tuple in `SQLStatement.is_mutating`. -/
def mutatingKinds : List NodeKind :=
  [.insert, .update, .delete, .merge, .create, .drop, .truncateTable]

/-- Whether one walked node triggers the mutating classification: one of the
DML/DDL kinds, or a dialect `exp.Command` whose name is `ALTER`. -/
def isMutatingNode (e : SGExpr) : Bool :=
  mutatingKinds.contains e.kind || (e.kind == .command && e.name == "ALTER")

/-- Python `str.upper()` (ASCII range, which covers the `ANALYZE` check). -/
def pyUpper (s : String) : String :=
  String.mk (s.data.map Char.toUpper)

/-- Python `str.startswith(pat)`. -/
def pyStartsWith (s pat : String) : Bool :=
  pat.data.isPrefixOf s.data

/-- Python slicing `s[n:]` (by characters). -/
def strDropChars (s : String) (n : Nat) : String :=
  String.mk (s.data.drop n)

/-- `SQLStatement.is_mutating`, with the recursion of the Postgres
`EXPLAIN ANALYZE` special case fuelled (each level re-parses the analyzed
text through the external parser; `none` with zero fuel stands for a
non-returning unfolding and is unreachable for any concretely fuelled call).
A raised parse error during the recursive construction is `none` as well.
`self._parsed.expression` is the command's first child. -/
def SQLStatement_is_mutating (pm : ParseOracle) :
    Nat → String → SGExpr → Option Bool
  | 0, _, _ => none
  | fuel + 1, engine, parsed =>
    if anyNode isMutatingNode parsed then some true
    else
      match (SGList.toList parsed.children).head? with
      | some ex =>
        if SQLGLOT_DIALECTS engine = some .POSTGRES ∧ parsed.kind = .command ∧
            parsed.name = "EXPLAIN" ∧
            pyStartsWith (pyUpper ex.name) "ANALYZE " = true then
          match SQLStatement_parse_statement pm (strDropChars ex.name 8) engine with
          | .ok inner => SQLStatement_is_mutating pm fuel engine inner
          | .error _ => none
        else some false
      | none => some false

/-- The shape under which the Postgres special case of `is_mutating` fires. -/
def pgExplainShape (engine : String) (parsed : SGExpr) : Prop :=
  SQLGLOT_DIALECTS engine = some .POSTGRES ∧ parsed.kind = .command ∧
    parsed.name = "EXPLAIN" ∧
    ∃ ex, (SGList.toList parsed.children).head? = some ex ∧
      pyStartsWith (pyUpper ex.name) "ANALYZE " = true

/-! ### Settings extraction -/

/-- One insertion into a Python dict: overwrite in place if the key exists,
append otherwise. -/
def dictInsert (d : List (String × String)) (k v : String) :
    List (String × String) :=
  if d.any fun p => p.1 == k then
    d.map fun p => if p.1 == k then (k, v) else p
  else d ++ [(k, v)]

/-- `dict.update(other)`: insert `other`'s pairs in order. -/
def dictUpdate (d other : List (String × String)) : List (String × String) :=
  other.foldl (fun acc p => dictInsert acc p.1 p.2) d

/-- Python `d[k]` on the modelled dict: value of the first (unique) pair with
the key. -/
def lookupKey (d : List (String × String)) (k : String) : Option String :=
  (d.find? fun p => p.1 == k).map Prod.snd

/-- `SQLStatement.get_settings`: the dict comprehension
`{eq.this.sql(): eq.expression.sql() for set_item in
self._parsed.find_all(exp.SetItem) for eq in set_item.find_all(exp.EQ)}`. -/
def SQLStatement_get_settings (parsed : SGExpr) : List (String × String) :=
  ((collectKind .setItem parsed).map (fun si =>
      (collectKind .eqExpr si).map fun eqn =>
        ((eqn.childD 0).sqlText, (eqn.childD 1).sqlText))).flatten.foldl
    (fun acc p => dictInsert acc p.1 p.2) []

/-- `SQLScript.get_settings`: fold each statement's settings in statement
order, later assignments overwriting earlier ones. -/
def SQLScript_get_settings (statements : List SQLStatementObj) :
    List (String × String) :=
  statements.foldl (fun settings st => dictUpdate settings (SQLStatement_get_settings st.parsed)) []

/-! ### KustoKQLStatement (textual variant) -/

/-- Python `str.strip()` (ASCII whitespace). -/
def isPySpace (c : Char) : Bool :=
  c == ' ' || c == Char.ofNat 9 || c == Char.ofNat 10 || c == Char.ofNat 13 ||
    c == Char.ofNat 11 || c == Char.ofNat 12

def pyStrip (s : String) : String :=
  String.mk (((s.data.dropWhile isPySpace).reverse.dropWhile isPySpace).reverse)

/-- The warning logged by `KustoKQLStatement._extract_tables_from_statement`. -/
def kustoWarningMsg : String :=
  "Kusto KQL doesn't support table extraction. This means that data access roles will not be enforced by Superset in the database."

/-- `KustoKQLStatement._parse_statement`: engine must be `kustokql`, the text
must split into exactly one segment, which is returned stripped. -/
def KustoKQLStatement_parse_statement (statement : String) (engine : String) :
    Except ParseFailure String :=
  if engine ≠ "kustokql" then .error .invalidEngine
  else
    match split_kql statement with
    | [s] => .ok (pyStrip s)
    | _ => .error .notSingleStatement

/-- `KustoKQLStatement._extract_tables_from_statement`: unconditionally logs
the warning and returns the empty set, whatever the statement text. -/
def KustoKQLStatement_extract_tables (_parsed : String) (_engine : String) :
    List String × List Table :=
  ([kustoWarningMsg], [])

/-- A constructed `KustoKQLStatement`. -/
structure KustoStmt where
  engine : String
  parsed : String
  tables : List Table
  deriving DecidableEq

/-- `KustoKQLStatement(statement, engine)` from a string: parse, then the
eager (empty) table extraction; the emitted warnings are returned alongside. -/
def KustoKQLStatement_fromText (statement engine : String) :
    Except ParseFailure (KustoStmt × List String) :=
  match KustoKQLStatement_parse_statement statement engine with
  | .error e => .error e
  | .ok p =>
    .ok ({ engine := engine, parsed := p,
           tables := (KustoKQLStatement_extract_tables p engine).2 },
         (KustoKQLStatement_extract_tables p engine).1)

/-- `KustoKQLStatement.split_query`: wrap every `split_kql` segment (empty
segments included) as a statement. -/
def KustoKQLStatement_split_query (query engine : String) :
    Except ParseFailure (List KustoStmt) :=
  (split_kql query).mapM fun s => (KustoKQLStatement_fromText s engine).map Prod.fst

/-! ### Concrete external-parser outputs for the examples of the spec

The grammar engine itself is out of scope; the trees and scope lists below are
modelled from the spec's description of its interface (`parse`, `parse_one`,
`resolve_scopes`) at the concrete inputs the claims mention. -/

/-- An `exp.Table` reference node. -/
def tNode (n db cat : String) : SGExpr :=
  .mk .tableRef n db cat n .nil

/-- Modelled from the spec: the external engine parses each plain DML/DDL
example to a tree rooted at the matching node kind (`INSERT INTO t VALUES
(1)` to an insert node, and so on). -/
def insertAST : SGExpr :=
  .mk .insert "" "" "" "INSERT INTO t VALUES (1)"
    (.cons (tNode "t" "" "") (.cons (.mk .literal "1" "" "" "1" .nil) .nil))

/-- Modelled from the spec: `UPDATE t SET x=1` parses to an update node. -/
def updateAST : SGExpr :=
  .mk .update "" "" "" "UPDATE t SET x=1" (.cons (tNode "t" "" "") .nil)

/-- Modelled from the spec: `DELETE FROM t` parses to a delete node. -/
def deleteAST : SGExpr :=
  .mk .delete "" "" "" "DELETE FROM t" (.cons (tNode "t" "" "") .nil)

/-- Modelled from the spec: `CREATE TABLE t (c INT)` parses to a create node. -/
def createAST : SGExpr :=
  .mk .create "" "" "" "CREATE TABLE t (c INT)" (.cons (tNode "t" "" "") .nil)

/-- Modelled from the spec: `DROP TABLE t` parses to a drop node. -/
def dropAST : SGExpr :=
  .mk .drop "" "" "" "DROP TABLE t" (.cons (tNode "t" "" "") .nil)

/-- Modelled from the spec: `SELECT 1` parses to a select over a literal;
none of its nodes is a mutating kind. -/
def selectOneAST : SGExpr :=
  .mk .select "" "" "" "SELECT 1" (.cons (.mk .literal "1" "" "" "1" .nil) .nil)

/-- Modelled from the spec: under Postgres, `EXPLAIN ANALYZE DELETE FROM t`
parses to a dialect command named `EXPLAIN` whose expression is the literal
rest of the text. -/
def explainAnalyzeDeleteAST : SGExpr :=
  .mk .command "EXPLAIN" "" "" "EXPLAIN ANALYZE DELETE FROM t"
    (.cons (.mk .literal "ANALYZE DELETE FROM t" "" "" "" .nil) .nil)

/-- A parse oracle knowing exactly the analyzed inner statement
`DELETE FROM t`. -/
def pmDelete : ParseOracle := fun s _ =>
  if s = "DELETE FROM t" then some [some deleteAST] else none

/-- A parse oracle that fails on every input. -/
def pmFail : ParseOracle := fun _ _ => none

/-- A `parse_one` oracle that fails on every input (unused branches). -/
def poFail : ParseOneOracle := fun _ _ => none

/-- A scope oracle for statements whose scope tree is irrelevant. -/
def tsEmpty : SGExpr → List ScopeInfo := fun _ => []

/-- Modelled from the spec: the parse of
`WITH foo AS (SELECT * FROM target_table) SELECT * FROM foo` (a general
query: neither a describe nor a command). -/
def withFooAST : SGExpr :=
  .mk .select "" "" "" "WITH foo AS (SELECT * FROM target_table) SELECT * FROM foo"
    (.cons (tNode "foo" "" "") .nil)

/-- The sources of the root scope of `withFooAST`: the name `foo` is bound to
the nested CTE scope. -/
def rootSourcesC1 : List (String × ScopeSource) :=
  [("foo", .sub .CTE)]

/-- The scope of the CTE body `SELECT * FROM target_table`: binds
`target_table` to a real table reference; its parent is the root scope. -/
def cteScopeC1 : ScopeInfo :=
  { scope_type := .CTE,
    sources := [("target_table", .tbl (tNode "target_table" "" ""))],
    parentSources := some rootSourcesC1 }

/-- The root scope of `withFooAST`. -/
def rootScopeC1 : ScopeInfo :=
  { scope_type := .ROOT, sources := rootSourcesC1, parentSources := none }

/-- Modelled from the spec: `resolve_scopes` on `withFooAST` yields the CTE
scope and the root scope (`traverse_scope` returns inner scopes first). -/
def tsC1 : SGExpr → List ScopeInfo := fun e =>
  if e = withFooAST then [cteScopeC1, rootScopeC1] else []

/-- Modelled from the spec: the parse of `SET foo = <value>` — a SET
statement holding one `SetItem` holding one `EQ` whose left side renders
`foo` and whose right side renders exactly the source text of the value,
quoting included. -/
def setFooAST (v : String) : SGExpr :=
  .mk .setStmt "" "" "" "" (.cons
    (.mk .setItem "" "" "" "" (.cons
      (.mk .eqExpr "" "" "" "" (.cons
        (.mk .column "foo" "" "" "foo" .nil) (.cons
        (.mk .literal v "" "" v .nil) .nil))) .nil)) .nil)

/-! ### Helper lemmas about the splitter scan -/

/-- Scanning a separator never changes the machine state, whatever state the
machine is in. -/
theorem kqlNextState_semi (st : KQLSplitState) (p2 p1 : Option Char) :
    kqlNextState st p2 p1 ';' = st := by
  have h1 : ¬((';' : Char) = squote) := by decide
  have h2 : ¬((';' : Char) = dquote) := by decide
  have h3 : ¬((';' : Char) = btick) := by decide
  cases st <;> simp [kqlNextState, h1, h2, h3]

/-- The segment counter agrees with the segments the full scan emits. -/
theorem segs_length_foldl (l : List Char) :
    ∀ a : KQLAcc, ((l.foldl kqlStepAcc a).segs).length =
      a.segs.length + kqlCountFrom (a.st, a.p2, a.p1) l := by
  induction l with
  | nil => intro a; simp [kqlCountFrom]
  | cons c l ih =>
    intro a
    rw [List.foldl_cons, ih (kqlStepAcc a c)]
    by_cases h : a.st = KQLSplitState.OUTSIDE_STRING ∧ c = ';'
    · simp [kqlStepAcc, kqlTripStep, kqlCountFrom, h]
      omega
    · simp [kqlStepAcc, kqlTripStep, kqlCountFrom, h]

/-- `split_kql` returns one segment per separator scanned outside a string in
the processed query. -/
theorem split_kql_length (kql : String) :
    (split_kql kql).length = kqlCountFrom kqlInitTrip (kqlProcessed kql.data) := by
  unfold split_kql
  rw [List.length_map, List.length_reverse, segs_length_foldl]
  simp [kqlInitAcc, kqlInitTrip]

/-- Counting top-level separators over an extended text adds one exactly when
the appended character is a separator scanned outside any string. -/
theorem kqlCountFrom_append (l : List Char) :
    ∀ (t : KQLTrip) (c : Char),
      kqlCountFrom t (l ++ [c]) =
        kqlCountFrom t l +
          (if (kqlScanFrom t l).1 = KQLSplitState.OUTSIDE_STRING ∧ c = ';' then 1 else 0) := by
  induction l with
  | nil => intro t c; simp [kqlCountFrom, kqlScanFrom]
  | cons d l ih =>
    intro t c
    simp only [List.cons_append, kqlCountFrom, List.append_eq]
    rw [ih]
    have hscan : kqlScanFrom t (d :: l) = kqlScanFrom (kqlTripStep t d) l := by
      simp [kqlScanFrom]
    rw [hscan]
    omega

/-- The scan state over an extended text. -/
theorem kqlScanFrom_append (t : KQLTrip) (l : List Char) (c : Char) :
    kqlScanFrom t (l ++ [c]) = kqlTripStep (kqlScanFrom t l) c := by
  simp [kqlScanFrom]

/-- The final state of a scan ending in a separator equals the state just
before it. -/
theorem kqlScanFrom_semi_fst (t : KQLTrip) (l : List Char) :
    (kqlScanFrom t (l ++ [';'])).1 = (kqlScanFrom t l).1 := by
  rw [kqlScanFrom_append]
  exact kqlNextState_semi _ _ _

/-! ### Helper lemmas: dict semantics and mutation classification -/

/-- Overwriting an existing key rewrites the first matching pair in place. -/
theorem find_map_overwrite (k v : String) :
    ∀ d : List (String × String), d.any (fun p => p.1 == k) = true →
      ((d.map fun p => if p.1 == k then (k, v) else p).find? fun p => p.1 == k) =
        some (k, v) := by
  intro d
  induction d with
  | nil => intro h; simp at h
  | cons p d ih =>
    intro h
    by_cases hp : (p.1 == k) = true
    · rw [List.map_cons, if_pos hp]
      simp [List.find?]
    · have hd : d.any (fun p => p.1 == k) = true := by
        simp only [List.any_cons, Bool.or_eq_true] at h
        exact h.resolve_left hp
      rw [List.map_cons, if_neg hp]
      simp only [List.find?, hp]
      exact ih hd

/-- Inserting a binding makes that key's lookup return the inserted value:
the later assignment to the key wins. -/
theorem lookupKey_dictInsert (d : List (String × String)) (k v : String) :
    lookupKey (dictInsert d k v) k = some v := by
  unfold dictInsert
  by_cases h : (d.any fun p => p.1 == k) = true
  · rw [if_pos h]
    unfold lookupKey
    rw [find_map_overwrite k v d h]
    rfl
  · rw [if_neg h]
    unfold lookupKey
    rw [List.find?_append]
    have hnone : (d.find? fun p => p.1 == k) = none := by
      apply List.find?_eq_none.mpr
      intro x hx hpx
      exact h (List.any_eq_true.mpr ⟨x, hx, hpx⟩)
    rw [hnone]
    simp

/-- Whenever the Postgres `EXPLAIN ANALYZE` special case does not apply,
`is_mutating` is exactly the walk over the AST for mutating nodes. -/
theorem isMutating_eq_walk (pm : ParseOracle) (fuel : Nat) (engine : String)
    (e : SGExpr) (h : ¬ pgExplainShape engine e) :
    SQLStatement_is_mutating pm (fuel + 1) engine e = some (anyNode isMutatingNode e) := by
  rw [SQLStatement_is_mutating]
  by_cases ha : anyNode isMutatingNode e = true
  · rw [if_pos ha, ha]
  · have ha0 : anyNode isMutatingNode e = false := by simpa using ha
    rw [if_neg ha, ha0]
    cases hh : (SGList.toList e.children).head? with
    | none => rfl
    | some ex =>
      dsimp only
      rw [if_neg]
      intro hc
      exact h ⟨hc.1, hc.2.1, hc.2.2.1, ex, hh, hc.2.2.2⟩

/-! ### The claims -/

/-- C1: for the grammar-backed variant, extracting tables from
`WITH foo AS (SELECT * FROM target_table) SELECT * FROM foo` returns exactly
the set containing `target_table` and never includes the CTE alias `foo`;
and, in general, a candidate table reference found in a scope `S` is excluded
whenever its short name matches a binding in `S`'s parent scope whose bound
scope is tagged CTE. -/
theorem c1_cte_exclusion :
    extract_tables_from_statement tsC1 poFail withFooAST none =
      [{ table := "target_table" }] ∧
    ({ table := "foo" } : Table) ∉
      extract_tables_from_statement tsC1 poFail withFooAST none ∧
    (∀ (src : SGExpr) (scope : ScopeInfo) (ps : List (String × ScopeSource)),
      scope.parentSources = some ps →
      (src.name, ScopeSource.sub .CTE) ∈ ps →
      is_cte src scope = true) ∧
    (∀ (src : SGExpr) (scope : ScopeInfo),
      is_cte src scope = true → src ∉ scopeCandidates scope) := by
  refine ⟨by decide, by decide, ?_, ?_⟩
  · intro src scope ps hps hmem
    have hmem2 : src.name ∈ (ps.filter fun p =>
        match p.2 with
        | .sub st => st == ScopeType.CTE
        | .tbl _ => false).map Prod.fst :=
      List.mem_map.mpr ⟨(src.name, ScopeSource.sub .CTE),
        List.mem_filter.mpr ⟨hmem, rfl⟩, rfl⟩
    simp only [is_cte, hps, Option.getD_some]
    simpa using hmem2
  · intro src scope hcte hmem
    rcases List.mem_filterMap.mp hmem with ⟨p, _, hf⟩
    rcases p with ⟨nm, s⟩
    cases s with
    | tbl t =>
      by_cases hc : is_cte t scope = true
      · simp [hc] at hf
      · simp [hc] at hf
        subst hf
        exact hc hcte
    | sub st => simp at hf

/-- Witness for C1: the CTE alias `foo`, bound in the parent scope of the CTE
body, is classified as a CTE and excluded from the candidate sources. -/
theorem c1_cte_exclusion_witness :
    is_cte (tNode "foo" "" "") cteScopeC1 = true ∧
    tNode "foo" "" "" ∉ scopeCandidates cteScopeC1 :=
  have h1 : is_cte (tNode "foo" "" "") cteScopeC1 = true :=
    c1_cte_exclusion.2.2.1 (tNode "foo" "" "") cteScopeC1 rootSourcesC1 rfl (by decide)
  ⟨h1, c1_cte_exclusion.2.2.2 (tNode "foo" "" "") cteScopeC1 h1⟩

/-- C2 (amended): for every input that does not already end with a separator
and whose scan ends outside any string literal, `split_kql` returns exactly
`n + 1` segments, where `n` is the number of top-level separators outside any
string literal.  (As stated the claim fails for inputs whose last character
is a separator: see the counterexample.) -/
theorem c2_segment_count (kql : String)
    (h1 : endsWithSemi kql.data = false)
    (h2 : (kqlScanFrom kqlInitTrip kql.data).1 = KQLSplitState.OUTSIDE_STRING) :
    (split_kql kql).length = topLevelSemis kql + 1 := by
  rw [split_kql_length]
  unfold kqlProcessed
  rw [if_neg (by simp [h1])]
  rw [kqlCountFrom_append, if_pos ⟨h2, rfl⟩]
  rfl

/-- Counterexample to C2 as stated: the text `";"` contains one top-level
separator outside any string literal, yet `split_kql` returns one segment,
not two. -/
theorem c2_counterexample :
    topLevelSemis ";" = 1 ∧ (split_kql ";").length ≠ 1 + 1 := by decide

/-- Witness for C2 at the input `"foo;bar"`. -/
theorem c2_segment_count_witness :
    endsWithSemi (String.data "foo;bar") = false ∧
    (kqlScanFrom kqlInitTrip (String.data "foo;bar")).1 = KQLSplitState.OUTSIDE_STRING ∧
    (split_kql "foo;bar").length = topLevelSemis "foo;bar" + 1 :=
  ⟨by decide, by decide, c2_segment_count "foo;bar" (by decide) (by decide)⟩

/-- C3 (amended): `Table` equality is defined over the canonical string form
(catalog, schema, table in that order, absent or empty parts omitted, parts
percent-encoded with a literal `.` replaced by its percent-encoding, joined
with `.`): two `Table` values are `__eq__`-equal iff their canonical strings
coincide, `Table(None, None, "t")` renders as `"t"`, `Table(None, "s", "t")`
as `"s.t"`, and an escaped dot never collapses two parts into one; hashing,
however, is the structural dataclass hash over the field tuple, so hash
equality tracks field equality, not canonical-string equality. -/
theorem c3_canonical_equality :
    (∀ a b : Table, Table.pyEq a b = true ↔ a.canonicalStr = b.canonicalStr) ∧
    Table.canonicalStr { table := "t" } = "t" ∧
    Table.canonicalStr { table := "t", schema := some "s" } = "s.t" ∧
    Table.canonicalStr { table := "a.b" } = "a%2Eb" ∧
    Table.canonicalStr { table := "a.b" } ≠
      Table.canonicalStr { table := "b", schema := some "a" } ∧
    (∀ a b : Table, a.hashKey = b.hashKey ↔ a = b) := by
  refine ⟨?_, by decide, by decide, by decide, by decide, ?_⟩
  · intro a b
    simp [Table.pyEq]
  · intro a b
    cases a
    cases b
    simp [Table.hashKey, Prod.ext_iff, Table.mk.injEq]

/-- Counterexample to C3 as stated: an empty-string schema and an absent
schema give equal canonical strings (hence `__eq__`-equal `Table` values) but
distinct dataclass hash keys, so "hash equal iff canonical strings coincide"
fails on the code. -/
theorem c3_counterexample :
    Table.pyEq { table := "t", schema := some "" } { table := "t" } = true ∧
    Table.canonicalStr { table := "t", schema := some "" } =
      Table.canonicalStr { table := "t" } ∧
    Table.hashKey { table := "t", schema := some "" } ≠
      Table.hashKey ({ table := "t" } : Table) := by decide

/-- C4: the grammar-backed `is_mutating` is true exactly when some walked
node is an insert, update, delete, merge, create, drop or truncate-table
node, or a dialect command named `ALTER` (modulo the Postgres
`EXPLAIN ANALYZE` special case); the five DML/DDL examples classify as
mutating and `SELECT 1` does not. -/
theorem c4_mutation_classification :
    (∀ (pm : ParseOracle) (fuel : Nat) (engine : String) (e : SGExpr),
      ¬ pgExplainShape engine e →
      SQLStatement_is_mutating pm (fuel + 1) engine e =
        some (anyNode isMutatingNode e)) ∧
    SQLStatement_is_mutating pmFail 1 "mysql" insertAST = some true ∧
    SQLStatement_is_mutating pmFail 1 "mysql" updateAST = some true ∧
    SQLStatement_is_mutating pmFail 1 "mysql" deleteAST = some true ∧
    SQLStatement_is_mutating pmFail 1 "mysql" createAST = some true ∧
    SQLStatement_is_mutating pmFail 1 "mysql" dropAST = some true ∧
    SQLStatement_is_mutating pmFail 1 "mysql" selectOneAST = some false :=
  ⟨fun pm fuel engine e h => isMutating_eq_walk pm fuel engine e h,
    by decide, by decide, by decide, by decide, by decide, by decide⟩

/-- Witness for C4: the general characterization applied at `SELECT 1` under
the MySQL dialect. -/
theorem c4_mutation_classification_witness :
    SQLStatement_is_mutating pmFail 1 "mysql" selectOneAST =
      some (anyNode isMutatingNode selectOneAST) :=
  c4_mutation_classification.1 pmFail 0 "mysql" selectOneAST
    (fun h => absurd h.1 (by decide))

/-- C5: under the Postgres dialect a top-level `EXPLAIN ANALYZE <inner>`
command is classified by re-parsing `<inner>` as a fresh statement and
recursively classifying it (so `EXPLAIN ANALYZE DELETE FROM t` is mutating),
and the recursion never fires when the engine's dialect is not Postgres. -/
theorem c5_explain_analyze_recursion :
    (∀ (pm : ParseOracle) (fuel : Nat) (engine : String) (e ex : SGExpr),
      SQLGLOT_DIALECTS engine = some .POSTGRES →
      e.kind = .command → e.name = "EXPLAIN" →
      (SGList.toList e.children).head? = some ex →
      pyStartsWith (pyUpper ex.name) "ANALYZE " = true →
      anyNode isMutatingNode e = false →
      SQLStatement_is_mutating pm (fuel + 1) engine e =
        (match SQLStatement_parse_statement pm (strDropChars ex.name 8) engine with
         | .ok inner => SQLStatement_is_mutating pm fuel engine inner
         | .error _ => none)) ∧
    SQLStatement_is_mutating pmDelete 2 "postgresql" explainAnalyzeDeleteAST =
      some true ∧
    (∀ (pm : ParseOracle) (fuel : Nat) (engine : String) (e : SGExpr),
      SQLGLOT_DIALECTS engine ≠ some .POSTGRES →
      SQLStatement_is_mutating pm (fuel + 1) engine e =
        some (anyNode isMutatingNode e)) := by
  refine ⟨?_, by decide, ?_⟩
  · intro pm fuel engine e ex hd hk hn hh hsw ha
    rw [SQLStatement_is_mutating, if_neg (by simp [ha])]
    simp only [hh]
    rw [if_pos ⟨hd, hk, hn, hsw⟩]
  · intro pm fuel engine e hne
    exact isMutating_eq_walk pm fuel engine e (fun hp => hne hp.1)

/-- Witness for C5: the recursion equation at the Postgres
`EXPLAIN ANALYZE DELETE FROM t` command, and the dialect gate at MySQL. -/
theorem c5_explain_analyze_recursion_witness :
    (SQLStatement_is_mutating pmDelete 2 "postgresql" explainAnalyzeDeleteAST =
      (match SQLStatement_parse_statement pmDelete
          (strDropChars "ANALYZE DELETE FROM t" 8) "postgresql" with
       | .ok inner => SQLStatement_is_mutating pmDelete 1 "postgresql" inner
       | .error _ => none)) ∧
    SQLStatement_is_mutating pmDelete 2 "mysql" explainAnalyzeDeleteAST =
      some (anyNode isMutatingNode explainAnalyzeDeleteAST) :=
  ⟨c5_explain_analyze_recursion.1 pmDelete 1 "postgresql" explainAnalyzeDeleteAST
      (SGExpr.mk .literal "ANALYZE DELETE FROM t" "" "" "" .nil)
      (by decide) (by decide) (by decide) (by decide) (by decide) (by decide),
   c5_explain_analyze_recursion.2.2 pmDelete 1 "mysql" explainAnalyzeDeleteAST
      (by decide)⟩

/-- C6: script-level `get_settings` folds per-statement settings in statement
order with later assignments to a key overwriting earlier ones, and the
grammar-backed per-statement settings keep the right-hand side exactly as its
source text including quoting: the script `SET foo='bar'; SET foo='baz'`
yields the single binding `foo` to `'baz'`, and a lone `SET foo = 'bar'`
yields `foo` bound to `'bar'`. -/
theorem c6_settings_fold :
    SQLScript_get_settings
        [SQLStatement_fromAST tsEmpty poFail (setFooAST "'bar'") "postgresql",
         SQLStatement_fromAST tsEmpty poFail (setFooAST "'baz'") "postgresql"] =
      [("foo", "'baz'")] ∧
    SQLStatement_get_settings (setFooAST "'bar'") = [("foo", "'bar'")] ∧
    (∀ (statements : List SQLStatementObj) (st : SQLStatementObj),
      SQLScript_get_settings (statements ++ [st]) =
        dictUpdate (SQLScript_get_settings statements)
          (SQLStatement_get_settings st.parsed)) ∧
    (∀ (d : List (String × String)) (k v : String),
      lookupKey (dictInsert d k v) k = some v) := by
  refine ⟨by decide, by decide, ?_, lookupKey_dictInsert⟩
  intro statements st
  unfold SQLScript_get_settings
  rw [List.foldl_append]
  rfl

/-- C7: constructing a single statement (either variant) from text that
splits into zero or more than one top-level statement fails with the
not-single-statement error, and a successfully constructed statement always
represents exactly one statement unit. -/
theorem c7_single_statement :
    (∀ (pm : ParseOracle) (engine statement : String) (sts : List (Option SGExpr)),
      pm statement (SQLGLOT_DIALECTS engine) = some sts →
      (sts.filterMap id).length ≠ 1 →
      SQLStatement_parse_statement pm statement engine = .error .notSingleStatement) ∧
    (∀ (pm : ParseOracle) (engine statement : String) (e : SGExpr),
      SQLStatement_parse_statement pm statement engine = .ok e →
      ∃ sts, pm statement (SQLGLOT_DIALECTS engine) = some sts ∧
        sts.filterMap id = [e]) ∧
    (∀ statement : String,
      (split_kql statement).length ≠ 1 →
      KustoKQLStatement_parse_statement statement "kustokql" =
        .error .notSingleStatement) ∧
    (∀ (statement engine r : String),
      KustoKQLStatement_parse_statement statement engine = .ok r →
      engine = "kustokql" ∧ ∃ seg, split_kql statement = [seg] ∧ r = pyStrip seg) := by
  refine ⟨?_, ?_, ?_, ?_⟩
  · intro pm engine statement sts hpm hlen
    unfold SQLStatement_parse_statement
    rw [hpm]
    dsimp only
    rcases hx : sts.filterMap id with _ | ⟨s, _ | ⟨s2, t⟩⟩
    · rfl
    · exact absurd (by rw [hx]; rfl) hlen
    · rfl
  · intro pm engine statement e hok
    unfold SQLStatement_parse_statement at hok
    cases hpm : pm statement (SQLGLOT_DIALECTS engine) with
    | none => rw [hpm] at hok; exact absurd hok (by simp)
    | some sts =>
      rw [hpm] at hok
      dsimp only at hok
      refine ⟨sts, rfl, ?_⟩
      rcases hx : sts.filterMap id with _ | ⟨s, _ | ⟨s2, t⟩⟩ <;> rw [hx] at hok
      · simp at hok
      · simp only [Except.ok.injEq] at hok
        rw [hok]
      · simp at hok
  · intro statement hlen
    unfold KustoKQLStatement_parse_statement
    rw [if_neg (by simp)]
    rcases hx : split_kql statement with _ | ⟨s, _ | ⟨s2, t⟩⟩
    · rfl
    · exact absurd (by rw [hx]; rfl) hlen
    · rfl
  · intro statement engine r hok
    unfold KustoKQLStatement_parse_statement at hok
    by_cases he : engine ≠ "kustokql"
    · rw [if_pos he] at hok
      exact absurd hok (by simp)
    · rw [if_neg he] at hok
      refine ⟨not_not.mp he, ?_⟩
      rcases hx : split_kql statement with _ | ⟨s, _ | ⟨s2, t⟩⟩ <;> rw [hx] at hok
      · simp at hok
      · simp only [Except.ok.injEq] at hok
        exact ⟨s, rfl, hok.symm⟩
      · simp at hok

/-- Witness for C7: a grammar-backed parse yielding zero units and a textual
split yielding two units both fail with the not-single-statement error. -/
theorem c7_single_statement_witness :
    SQLStatement_parse_statement (fun _ _ => some []) "" "mysql" =
      .error .notSingleStatement ∧
    KustoKQLStatement_parse_statement "a;b" "kustokql" =
      .error .notSingleStatement ∧
    KustoKQLStatement_parse_statement " x " "kustokql" = .ok "x" ∧
    "kustokql" = "kustokql" :=
  ⟨c7_single_statement.1 (fun _ _ => some []) "mysql" "" [] rfl (by decide),
   c7_single_statement.2.2.1 "a;b" (by decide),
   rfl,
   (c7_single_statement.2.2.2 " x " "kustokql" "x" rfl).1⟩

/-- C8: for every statement of the ungrammared (Kusto KQL) dialect,
table extraction returns the empty set and emits the warning, whatever the
statement's text; a successfully constructed Kusto statement therefore always
carries an empty table set. -/
theorem c8_kusto_no_tables :
    (∀ parsed engine : String,
      KustoKQLStatement_extract_tables parsed engine = ([kustoWarningMsg], [])) ∧
    (∀ (statement engine : String) (st : KustoStmt) (warns : List String),
      KustoKQLStatement_fromText statement engine = .ok (st, warns) →
      st.tables = [] ∧ warns = [kustoWarningMsg]) := by
  refine ⟨fun _ _ => rfl, ?_⟩
  intro statement engine st warns hok
  unfold KustoKQLStatement_fromText at hok
  cases hp : KustoKQLStatement_parse_statement statement engine with
  | error e => rw [hp] at hok; exact absurd hok (by simp)
  | ok p =>
    rw [hp] at hok
    simp only [Except.ok.injEq, Prod.mk.injEq] at hok
    obtain ⟨h1, h2⟩ := hok
    subst h1
    subst h2
    exact ⟨rfl, rfl⟩

/-- Witness for C8 at the statement `StormEvents | take 10`. -/
theorem c8_kusto_no_tables_witness :
    KustoKQLStatement_extract_tables "StormEvents | take 10" "kustokql" =
      ([kustoWarningMsg], []) ∧
    ({ engine := "kustokql", parsed := "StormEvents | take 10",
       tables := [] } : KustoStmt).tables = [] ∧
    [kustoWarningMsg] = [kustoWarningMsg] :=
  ⟨c8_kusto_no_tables.1 "StormEvents | take 10" "kustokql",
   c8_kusto_no_tables.2 "StormEvents | take 10" "kustokql"
      { engine := "kustokql", parsed := "StormEvents | take 10", tables := [] }
      [kustoWarningMsg] rfl⟩

/-- C9 (amended): in the quote-aware splitter, a backtick whose two preceding
characters are both backticks (the third backtick of a triple-backtick
sequence — not a double-backtick sequence) moves `Outside` to
`InMultilineQuoted`, and symmetrically moves `InMultilineQuoted` back to
`Outside`; a backtick without two preceding backticks leaves `Outside`
unchanged; and inside any quoted state a separator is inert: it neither
changes the state nor ends a segment. -/
theorem c9_multiline_transitions :
    kqlNextState .OUTSIDE_STRING (some btick) (some btick) btick =
      .INSIDE_MULTILINE_STRING ∧
    kqlNextState .INSIDE_MULTILINE_STRING (some btick) (some btick) btick =
      .OUTSIDE_STRING ∧
    (∀ p2 p1 : Option Char, ¬(p2 = some btick ∧ p1 = some btick) →
      kqlNextState .OUTSIDE_STRING p2 p1 btick = .OUTSIDE_STRING) ∧
    (∀ (st : KQLSplitState) (p2 p1 : Option Char),
      st ≠ .OUTSIDE_STRING → kqlNextState st p2 p1 ';' = st) ∧
    (∀ a : KQLAcc, a.st ≠ .OUTSIDE_STRING →
      (kqlStepAcc a ';').segs = a.segs ∧
      (kqlStepAcc a ';').cur = ';' :: a.cur ∧
      (kqlStepAcc a ';').st = a.st) := by
  refine ⟨by decide, by decide, ?_, ?_, ?_⟩
  · intro p2 p1 hno
    have h1 : ¬(btick = squote) := by decide
    have h2 : ¬(btick = dquote) := by decide
    simp [kqlNextState, h1, h2, hno]
  · exact fun st p2 p1 _ => kqlNextState_semi st p2 p1
  · intro a h
    unfold kqlStepAcc
    rw [if_neg (fun hc => h hc.1)]
    exact ⟨rfl, rfl, kqlNextState_semi a.st a.p2 a.p1⟩

/-- Counterexample to C9 as stated: scanning a double-backtick sequence from
the initial `Outside` state leaves the machine `Outside` (it does not enter
`InMultilineQuoted`), and a separator right after a double-backtick sequence
still ends a segment. -/
theorem c9_counterexample :
    (kqlScanFrom kqlInitTrip [btick, btick]).1 = KQLSplitState.OUTSIDE_STRING ∧
    KQLSplitState.OUTSIDE_STRING ≠ KQLSplitState.INSIDE_MULTILINE_STRING ∧
    split_kql (String.mk [btick, btick, ';', btick, btick]) =
      [String.mk [btick, btick], String.mk [btick, btick]] := by decide

/-- Witness for C9: the no-entry transition at empty look-back, and the inert
separator inside a single-quoted string. -/
theorem c9_multiline_transitions_witness :
    kqlNextState .OUTSIDE_STRING none none btick = .OUTSIDE_STRING ∧
    kqlNextState .INSIDE_SINGLE_QUOTED_STRING none none ';' =
      .INSIDE_SINGLE_QUOTED_STRING ∧
    (kqlStepAcc { st := .INSIDE_SINGLE_QUOTED_STRING, p2 := none, p1 := none,
                  cur := ['a'], segs := [] } ';').segs = [] :=
  ⟨c9_multiline_transitions.2.2.1 none none (by decide),
   c9_multiline_transitions.2.2.2.1 .INSIDE_SINGLE_QUOTED_STRING none none (by decide),
   (c9_multiline_transitions.2.2.2.2
      { st := .INSIDE_SINGLE_QUOTED_STRING, p2 := none, p1 := none,
        cur := ['a'], segs := [] } (by decide)).1⟩

/-- C10 (amended): `split_kql` returns at least one segment whenever its scan
of the raw input ends outside any string literal (as stated — for every
input — the claim fails when the scan ends inside an unterminated string:
see the counterexample); `split_kql` of the empty string is one empty
segment; constructing a textual-variant statement from empty or
whitespace-only text succeeds with an empty statement; the textual split
wraps empty segments as statements, while the grammar-backed split drops
empty parse units. -/
theorem c10_split_guarantees :
    (∀ kql : String,
      (kqlScanFrom kqlInitTrip kql.data).1 = KQLSplitState.OUTSIDE_STRING →
      1 ≤ (split_kql kql).length) ∧
    split_kql "" = [""] ∧
    KustoKQLStatement_fromText "" "kustokql" =
      .ok ({ engine := "kustokql", parsed := "", tables := [] },
        [kustoWarningMsg]) ∧
    KustoKQLStatement_fromText "   " "kustokql" =
      .ok ({ engine := "kustokql", parsed := "", tables := [] },
        [kustoWarningMsg]) ∧
    KustoKQLStatement_split_query "a;;b" "kustokql" =
      .ok [{ engine := "kustokql", parsed := "a", tables := [] },
           { engine := "kustokql", parsed := "", tables := [] },
           { engine := "kustokql", parsed := "b", tables := [] }] ∧
    SQLStatement_split_query (fun _ _ => some [some selectOneAST, none]) tsEmpty
        poFail "SELECT 1;" "mysql" =
      .ok [SQLStatement_fromAST tsEmpty poFail selectOneAST "mysql"] := by
  refine ⟨?_, by decide, rfl, rfl, rfl, rfl⟩
  intro kql h
  rw [split_kql_length]
  unfold kqlProcessed
  by_cases he : endsWithSemi kql.data = true
  · rw [if_pos he]
    obtain ⟨l, hl⟩ : ∃ l, kql.data = l ++ [';'] := by
      unfold endsWithSemi at he
      cases hg : kql.data.getLast? with
      | none => rw [hg] at he; simp at he
      | some c =>
        rw [hg] at he
        have hc : c = ';' := by simpa using he
        subst hc
        exact List.getLast?_eq_some_iff.mp hg
    rw [hl] at h ⊢
    rw [kqlCountFrom_append]
    have hst : (kqlScanFrom kqlInitTrip l).1 = KQLSplitState.OUTSIDE_STRING := by
      rw [← kqlScanFrom_semi_fst]
      exact h
    rw [if_pos ⟨hst, rfl⟩]
    omega
  · rw [if_neg he]
    rw [kqlCountFrom_append, if_pos ⟨h, rfl⟩]
    omega

/-- Counterexample to C10 as stated: an input that opens a string literal
which swallows the trailing separator makes `split_kql` return zero
segments. -/
theorem c10_counterexample :
    split_kql (String.mk [squote, 'a', ';']) = [] ∧
    ¬ 1 ≤ (split_kql (String.mk [squote, 'a', ';'])).length := by decide

/-- Witness for C10 at the input `"StormEvents"`. -/
theorem c10_split_guarantees_witness :
    (kqlScanFrom kqlInitTrip (String.data "StormEvents")).1 =
      KQLSplitState.OUTSIDE_STRING ∧
    1 ≤ (split_kql "StormEvents").length :=
  ⟨by decide, c10_split_guarantees.1 "StormEvents" (by decide)⟩

end Superset
